import Mathlib

/-!
Shallow embedding of the GRID Unreal Engine editor bridge
(`Source/GRIDEditor/Private/GRIDBridge.cpp`, `GRIDServerRunnable.cpp`, and the
six `Commands/*Commands.cpp` handler groups), together with theorems checking
the natural-language specification against it.

Modelling conventions, matching the Unreal Engine APIs the source uses:
* `FJsonObject` is a field list in insertion order (`JObj`); every response in
  the source is built by `SetBoolField`/`SetStringField`/... on a fresh object,
  which appends fields in call order.
* `FString` comparison (`==`, `!=`), `StartsWith`, `Contains`, and
  `TMap<FString, _>` key lookup are case-insensitive in Unreal Engine
  (`ESearchCase::IgnoreCase` defaults, `Stricmp`-based hash/equality); they are
  modelled by `feq`, `fstartsWith`, `fcontains`, and `feq`-based field lookup.
* JSON numbers (C++ `double`) are modelled as `Int`; no claim depends on
  non-integral numeric values.
* Engine-side effects (the editor world, asset factories, `SpawnActor`,
  `FRunnableThread::Create`, socket calls, the file system) are modelled as
  explicit environment records whose fields say how each engine call answers;
  the control flow around them is translated from the source.
-/

/-- JSON values, as produced by UE `FJsonValue`/`FJsonObject`. Objects keep
their fields in insertion order, like `TMap` iteration with no removals. -/
inductive Json where
  | null : Json
  | bool : Bool → Json
  | num : Int → Json
  | str : String → Json
  | arr : List Json → Json
  | obj : List (String × Json) → Json

/-- An `FJsonObject`: fields in insertion order. -/
abbrev JObj := List (String × Json)

/-- Lower-cased character list of a string; basis of UE's case-insensitive
`FString` comparisons (`FCString::Stricmp`). -/
def lcs (s : String) : List Char :=
  s.toList.map Char.toLower

/-- UE `FString::operator==` (case-insensitive). -/
def feq (a b : String) : Bool :=
  lcs a == lcs b

/-- UE `FString::StartsWith` with its default `ESearchCase::IgnoreCase`. -/
def fstartsWith (s pre : String) : Bool :=
  (lcs pre).isPrefixOf (lcs s)

/-- Whether `p` occurs as a contiguous run inside `l`. -/
def containsSeq (p : List Char) : List Char → Bool
  | [] => p.isEmpty
  | c :: cs => p.isPrefixOf (c :: cs) || containsSeq p cs

/-- UE `FString::Contains` with its default `ESearchCase::IgnoreCase`. -/
def fcontains (s sub : String) : Bool :=
  containsSeq (lcs sub) (lcs s)

/-- Field lookup in an `FJsonObject`: `TMap<FString, TSharedPtr<FJsonValue>>`
lookup, whose `FString` hash and equality are case-insensitive. -/
def getField (o : JObj) (k : String) : Option Json :=
  (o.find? (fun f => feq f.1 k)).map (fun f => f.2)

/-- UE `FJsonValue::TryGetString`: strings yield themselves, and the
`FJsonValueNumber`/`FJsonValueBool` overrides convert numbers and booleans to
their string form; null, arrays and objects fail. -/
def jsonTryGetString : Json → Option String
  | Json.str s => some s
  | Json.num n => some (toString n)
  | Json.bool b => cond b "true" "false"
  | _ => none

/-- UE `FJsonObject::TryGetStringField`. -/
def tryGetStringField (o : JObj) (k : String) : Option String :=
  (getField o k).bind jsonTryGetString

/-- UE `FJsonObject::GetStringField`: like `TryGetStringField` but returning
the empty string when the field is missing or not string-convertible. -/
def getStringField (o : JObj) (k : String) : String :=
  (tryGetStringField o k).getD ""

/-- UE `FJsonObject::GetNumberField`: numbers yield themselves, booleans 1/0,
numeric strings parse (`FJsonValueString::TryGetNumber`); otherwise 0. -/
def getNumberField (o : JObj) (k : String) : Int :=
  match getField o k with
  | some (Json.num n) => n
  | some (Json.bool b) => cond b 1 0
  | some (Json.str s) => (s.toInt?).getD 0
  | _ => 0

/-- UE `FJsonObject::GetObjectField`: only an actual object yields a valid
pointer; any other case gives an invalid (null) shared pointer. -/
def getObjectField (o : JObj) (k : String) : Option JObj :=
  match getField o k with
  | some (Json.obj p) => some p
  | _ => none

/-- Minimal JSON string escaping (quote and backslash), used by the compact
serializer below. -/
def jesc (s : String) : String :=
  String.mk (s.toList.flatMap (fun c =>
    if c = '"' ∨ c = '\\' then ['\\', c] else [c]))

mutual

/-- Compact JSON rendering of a value. The source serializes responses with
`TJsonWriter`; the claims only ever compare whole serialized responses, so the
exact whitespace policy is irrelevant and a compact rendering is used. -/
def Json.render : Json → String
  | Json.null => "null"
  | Json.bool b => cond b "true" "false"
  | Json.num n => toString n
  | Json.str s => "\"" ++ jesc s ++ "\""
  | Json.arr xs => "[" ++ Json.renderItems xs ++ "]"
  | Json.obj fs => "\x7b" ++ Json.renderFields fs ++ "\x7d"

/-- Comma-separated rendering of array elements. -/
def Json.renderItems : List Json → String
  | [] => ""
  | [x] => Json.render x
  | x :: y :: xs => Json.render x ++ "," ++ Json.renderItems (y :: xs)

/-- Comma-separated rendering of object fields. -/
def Json.renderFields : List (String × Json) → String
  | [] => ""
  | [f] => "\"" ++ jesc f.1 ++ "\":" ++ Json.render f.2
  | f :: g :: fs =>
      "\"" ++ jesc f.1 ++ "\":" ++ Json.render f.2 ++ "," ++ Json.renderFields (g :: fs)

end

/-- Error-response builder shared, with byte-identical bodies, by
`FGRIDBridge::CreateErrorResponse` (GRIDBridge.cpp 264-271),
`FActorCommands::CreateError` (ActorCommands.cpp 267-274), and the identical
`CreateError` members of the blueprint, material, widget, asset and input
command classes: a fresh object receiving `success=false`, `error_code`,
`error` in that order. -/
def createError (code msg : String) : JObj :=
  [("success", Json.bool false), ("error_code", Json.str code), ("error", Json.str msg)]

/-- Success-response builder shared, with byte-identical bodies, by
`FGRIDBridge::CreateSuccessResponse` (GRIDBridge.cpp 273-282) and the
`CreateSuccess` members of the six command classes: `success=true`, then a
`data` object field only when the data pointer is valid. -/
def createSuccess (data : Option JObj) : JObj :=
  match data with
  | some d => [("success", Json.bool true), ("data", Json.obj d)]
  | none => [("success", Json.bool true)]

/-- Canonical response envelope shape (spec section 3, "Response"): a boolean
`success` field; on success at most an extra `data` field; on failure exactly
string `error_code` and `error` fields and no `data`. -/
def envelopeB (o : JObj) : Bool :=
  match getField o "success" with
  | some (Json.bool true) =>
      o.all (fun f => feq f.1 "success" || feq f.1 "data")
  | some (Json.bool false) =>
      (match getField o "error_code" with | some (Json.str _) => true | _ => false) &&
      (match getField o "error" with | some (Json.str _) => true | _ => false) &&
      o.all (fun f => feq f.1 "success" || feq f.1 "error_code" || feq f.1 "error")
  | _ => false

/-- Propositional form of the envelope invariant. -/
def IsEnvelope (o : JObj) : Prop :=
  envelopeB o = true

theorem isEnvelope_createError (code msg : String) : IsEnvelope (createError code msg) := by
  rfl

theorem isEnvelope_createSuccess (data : Option JObj) : IsEnvelope (createSuccess data) := by
  cases data <;> rfl

/-- An actor in the editor world, with the attributes the handlers read:
`GetActorLabel()`, `GetClass()->GetName()`, `GetActorLocation()`. -/
structure ActorInfo where
  label : String
  className : String
  x : Int
  y : Int
  z : Int

/-- What `FBlueprintCommands` reads from a loaded `UBlueprint`. -/
structure BlueprintInfo where
  name : String
  /-- Model of `ParentClass->GetName()`, or `none` when `ParentClass` is null. -/
  parentClass : Option String
  /-- whether `Status == BS_Error` (read by `blueprint_compile` after compiling). -/
  statusError : Bool
  /-- whether `Status == BS_UpToDate`. -/
  statusUpToDate : Bool
  /-- Model of `SimpleConstructionScript->GetAllNodes().Num()` when the SCS is non-null. -/
  scsNodeCount : Option Nat
  /-- Model of `NewVariables.Num()`. -/
  variableCount : Nat
  /-- number of `FunctionGraphs`. -/
  functionCount : Nat

/-- One asset-registry row read by `asset_search`: `AssetName`,
`GetObjectPathString()`, `AssetClassPath.GetAssetName()`. -/
structure AssetInfo where
  name : String
  path : String
  className : String

/-- Answers of the engine calls the implemented handler operations make.
Each field models one engine API exactly at the point the source consumes its
result; the surrounding control flow is translated from the source. -/
structure EngineEnv where
  /-- Model of `GEditor->GetEditorWorldContext().World()` and its actor iterator:
  `none` when `GEditor` is null or there is no world. -/
  world : Option (List ActorInfo)
  /-- Model of `UEditorAssetLibrary::LoadAsset` cast to `UBlueprint` (by path). -/
  loadBlueprint : String → Option BlueprintInfo
  /-- Model of `FindObject<UClass>(ANY_PACKAGE, name)`: the found class's `GetName()`. -/
  findClass : String → Option String
  /-- Model of `StaticLoadObject` of a blueprint with non-null `GeneratedClass`:
  the generated class's `GetName()` (by blueprint path). -/
  blueprintGenClass : String → Option String
  /-- Model of `World->SpawnActor`: `none` when it returns null, otherwise the new
  actor's `GetActorLabel()` (by class name). -/
  spawn : String → Option String
  /-- whether `UBlueprintFactory::FactoryCreateNew` returns a non-null blueprint. -/
  blueprintFactoryOk : Bool
  /-- whether `UMaterialFactoryNew::FactoryCreateNew` returns a non-null material. -/
  materialFactoryOk : Bool
  /-- Model of `FPackageName::GetLongPackageAssetName` (pure path munging). -/
  pkgAssetName : String → String
  /-- asset-registry `GetAssets` under `/Game` for a given class filter
  (`""` = no class filter). -/
  registryAssets : String → List AssetInfo

/-- JSON row built for one actor by `FActorCommands::ListActors`
(ActorCommands.cpp 87-99). -/
def actorListEntry (a : ActorInfo) : Json :=
  Json.obj [("name", Json.str a.label), ("class", Json.str a.className),
    ("x", Json.num a.x), ("y", Json.num a.y), ("z", Json.num a.z)]

/-- The `FActorCommands::ListActors` (ActorCommands.cpp 78-107). -/
def FActorCommands.listActors (env : EngineEnv) (_params : JObj) : JObj :=
  match env.world with
  | none => createError "NO_WORLD" "No active world"
  | some actors =>
      createSuccess (some
        [("actors", Json.arr (actors.map actorListEntry)),
         ("count", Json.num actors.length)])

/-- Filter applied per actor by `FActorCommands::FindActors`
(ActorCommands.cpp 124-133): label must contain the pattern (when given) and
the class name must equal `class` (when given); both checks case-insensitive. -/
def actorMatches (pattern className : String) (a : ActorInfo) : Bool :=
  (pattern.isEmpty || fcontains a.label pattern) &&
  (className.isEmpty || feq a.className className)

/-- The `FActorCommands::FindActors` (ActorCommands.cpp 109-149). -/
def FActorCommands.findActors (env : EngineEnv) (params : JObj) : JObj :=
  let pattern := getStringField params "pattern"
  let className := getStringField params "class"
  match env.world with
  | none => createError "NO_WORLD" "No active world"
  | some actors =>
      let found := actors.filter (actorMatches pattern className)
      createSuccess (some
        [("actors", Json.arr (found.map (fun a =>
            Json.obj [("name", Json.str a.label), ("class", Json.str a.className)]))),
         ("count", Json.num found.length)])

/-- The `FActorCommands::SpawnActor` (ActorCommands.cpp 151-204): resolve the
class from the `blueprint` path, else from `class`, else fall back to
`AStaticMeshActor`; spawn; report `SPAWN_FAILED` on a null actor. -/
def FActorCommands.spawnActor (env : EngineEnv) (params : JObj) : JObj :=
  let className := getStringField params "class"
  let bpPath := getStringField params "blueprint"
  let x := getNumberField params "x"
  let y := getNumberField params "y"
  let z := getNumberField params "z"
  match env.world with
  | none => createError "NO_WORLD" "No active world"
  | some _ =>
      let resolved : Option String :=
        if !bpPath.isEmpty then env.blueprintGenClass bpPath
        else if !className.isEmpty then env.findClass className
        else none
      let actorClass := resolved.getD "StaticMeshActor"
      match env.spawn actorClass with
      | none => createError "SPAWN_FAILED" "Failed to spawn actor"
      | some label =>
          createSuccess (some
            [("name", Json.str label), ("class", Json.str actorClass),
             ("x", Json.num x), ("y", Json.num y), ("z", Json.num z)])

/-- The `FActorCommands::HandleCommand` exact-string dispatch
(ActorCommands.cpp 20-76); the unlisted operations are the stubs of
ActorCommands.cpp 206-265, each answering `NOT_IMPLEMENTED`. -/
def FActorCommands.handleCommand (env : EngineEnv) (cmd : String) (params : JObj) : JObj :=
  if feq cmd "actor_list" then FActorCommands.listActors env params
  else if feq cmd "actor_find" then FActorCommands.findActors env params
  else if feq cmd "actor_spawn" then FActorCommands.spawnActor env params
  else if feq cmd "actor_delete" then createError "NOT_IMPLEMENTED" "DeleteActor not yet implemented"
  else if feq cmd "actor_get_info" then createError "NOT_IMPLEMENTED" "GetActorInfo not yet implemented"
  else if feq cmd "actor_get_transform" then createError "NOT_IMPLEMENTED" "GetTransform not yet implemented"
  else if feq cmd "actor_set_transform" then createError "NOT_IMPLEMENTED" "SetTransform not yet implemented"
  else if feq cmd "actor_set_location" then createError "NOT_IMPLEMENTED" "SetLocation not yet implemented"
  else if feq cmd "actor_set_rotation" then createError "NOT_IMPLEMENTED" "SetRotation not yet implemented"
  else if feq cmd "actor_set_scale" then createError "NOT_IMPLEMENTED" "SetScale not yet implemented"
  else if feq cmd "actor_focus" then createError "NOT_IMPLEMENTED" "FocusActor not yet implemented"
  else if feq cmd "actor_select" then createError "NOT_IMPLEMENTED" "SelectActor not yet implemented"
  else if feq cmd "actor_rename" then createError "NOT_IMPLEMENTED" "RenameActor not yet implemented"
  else createError "UNKNOWN_COMMAND" ("Unknown actor command: " ++ cmd)

/-- The `FBlueprintCommands::CreateBlueprint` (BlueprintCommands.cpp 116-170). -/
def FBlueprintCommands.createBlueprint (env : EngineEnv) (params : JObj) : JObj :=
  let path := getStringField params "path"
  let parentClass := getStringField params "parent_class"
  if path.isEmpty then createError "MISSING_PATH" "Blueprint path is required"
  else
    let parent : String :=
      if !parentClass.isEmpty then (env.findClass parentClass).getD "Actor" else "Actor"
    if !env.blueprintFactoryOk then createError "CREATE_FAILED" "Failed to create blueprint"
    else
      createSuccess (some
        [("path", Json.str path),
         ("name", Json.str (env.pkgAssetName path)),
         ("parent_class", Json.str parent)])

/-- The `FBlueprintCommands::CompileBlueprint` (BlueprintCommands.cpp 172-190);
`has_errors` reports `Status == BS_Error` as observed after the compile call. -/
def FBlueprintCommands.compileBlueprint (env : EngineEnv) (params : JObj) : JObj :=
  let path := getStringField params "path"
  match env.loadBlueprint path with
  | none => createError "NOT_FOUND" ("Blueprint not found: " ++ path)
  | some bp =>
      createSuccess (some
        [("path", Json.str path), ("compiled", Json.bool true),
         ("has_errors", Json.bool bp.statusError)])

/-- The `FBlueprintCommands::GetBlueprintInfo` (BlueprintCommands.cpp 192-226):
`component_count` is emitted only when the construction script is non-null. -/
def FBlueprintCommands.getBlueprintInfo (env : EngineEnv) (params : JObj) : JObj :=
  let path := getStringField params "path"
  match env.loadBlueprint path with
  | none => createError "NOT_FOUND" ("Blueprint not found: " ++ path)
  | some bp =>
      let base : JObj :=
        [("path", Json.str path), ("name", Json.str bp.name),
         ("parent_class", Json.str (bp.parentClass.getD "None")),
         ("status", Json.str (cond bp.statusUpToDate "UpToDate" "NeedsCompile"))]
      let withScs : JObj :=
        match bp.scsNodeCount with
        | some n => base ++ [("component_count", Json.num n)]
        | none => base
      createSuccess (some
        (withScs ++ [("variable_count", Json.num bp.variableCount),
                     ("function_count", Json.num bp.functionCount)]))

/-- The `FBlueprintCommands::HandleCommand` exact-string dispatch
(BlueprintCommands.cpp 25-109); unlisted operations are the stubs of
lines 228-317, each answering `NOT_IMPLEMENTED`. -/
def FBlueprintCommands.handleCommand (env : EngineEnv) (cmd : String) (params : JObj) : JObj :=
  if feq cmd "blueprint_create" then FBlueprintCommands.createBlueprint env params
  else if feq cmd "blueprint_compile" then FBlueprintCommands.compileBlueprint env params
  else if feq cmd "blueprint_get_info" then FBlueprintCommands.getBlueprintInfo env params
  else if feq cmd "blueprint_reparent" then createError "NOT_IMPLEMENTED" "ReparentBlueprint not yet implemented"
  else if feq cmd "blueprint_get_property" then createError "NOT_IMPLEMENTED" "GetProperty not yet implemented"
  else if feq cmd "blueprint_set_property" then createError "NOT_IMPLEMENTED" "SetProperty not yet implemented"
  else if feq cmd "blueprint_add_component" then createError "NOT_IMPLEMENTED" "AddComponent not yet implemented"
  else if feq cmd "blueprint_remove_component" then createError "NOT_IMPLEMENTED" "RemoveComponent not yet implemented"
  else if feq cmd "blueprint_get_hierarchy" then createError "NOT_IMPLEMENTED" "GetComponentHierarchy not yet implemented"
  else if feq cmd "blueprint_add_variable" then createError "NOT_IMPLEMENTED" "AddVariable not yet implemented"
  else if feq cmd "blueprint_remove_variable" then createError "NOT_IMPLEMENTED" "RemoveVariable not yet implemented"
  else if feq cmd "blueprint_list_variables" then createError "NOT_IMPLEMENTED" "ListVariables not yet implemented"
  else if feq cmd "blueprint_add_function" then createError "NOT_IMPLEMENTED" "AddFunction not yet implemented"
  else if feq cmd "blueprint_remove_function" then createError "NOT_IMPLEMENTED" "RemoveFunction not yet implemented"
  else if feq cmd "blueprint_list_functions" then createError "NOT_IMPLEMENTED" "ListFunctions not yet implemented"
  else if feq cmd "blueprint_discover_nodes" then createError "NOT_IMPLEMENTED" "DiscoverNodes not yet implemented"
  else if feq cmd "blueprint_create_node" then createError "NOT_IMPLEMENTED" "CreateNode not yet implemented"
  else if feq cmd "blueprint_delete_node" then createError "NOT_IMPLEMENTED" "DeleteNode not yet implemented"
  else if feq cmd "blueprint_connect_nodes" then createError "NOT_IMPLEMENTED" "ConnectNodes not yet implemented"
  else if feq cmd "blueprint_list_nodes" then createError "NOT_IMPLEMENTED" "ListNodes not yet implemented"
  else createError "UNKNOWN_COMMAND" ("Unknown blueprint command: " ++ cmd)

/-- The `FMaterialCommands::CreateMaterial` (MaterialCommands.cpp 24-48). -/
def FMaterialCommands.createMaterial (env : EngineEnv) (params : JObj) : JObj :=
  let path := getStringField params "path"
  if path.isEmpty then createError "MISSING_PATH" "Material path required"
  else if !env.materialFactoryOk then createError "CREATE_FAILED" "Failed to create material"
  else
    createSuccess (some
      [("path", Json.str path), ("name", Json.str (env.pkgAssetName path))])

/-- The `FMaterialCommands::HandleCommand` exact-string dispatch
(MaterialCommands.cpp 14-22); unlisted operations are the one-line stubs of
lines 50-62. -/
def FMaterialCommands.handleCommand (env : EngineEnv) (cmd : String) (params : JObj) : JObj :=
  if feq cmd "material_create" then FMaterialCommands.createMaterial env params
  else if feq cmd "material_create_instance" then createError "NOT_IMPLEMENTED" "Not implemented"
  else if feq cmd "material_get_info" then createError "NOT_IMPLEMENTED" "Not implemented"
  else if feq cmd "material_compile" then createError "NOT_IMPLEMENTED" "Not implemented"
  else if feq cmd "material_save" then createError "NOT_IMPLEMENTED" "Not implemented"
  else createError "UNKNOWN_COMMAND" ("Unknown material command: " ++ cmd)

/-- The `FWidgetCommands::HandleCommand` exact-string dispatch
(WidgetCommands.cpp 10-24); every operation is a stub (lines 26-36). -/
def FWidgetCommands.handleCommand (_env : EngineEnv) (cmd : String) (_params : JObj) : JObj :=
  if feq cmd "widget_create" then createError "NOT_IMPLEMENTED" "Not implemented"
  else if feq cmd "widget_list_components" then createError "NOT_IMPLEMENTED" "Not implemented"
  else if feq cmd "widget_add_component" then createError "NOT_IMPLEMENTED" "Not implemented"
  else if feq cmd "widget_remove_component" then createError "NOT_IMPLEMENTED" "Not implemented"
  else if feq cmd "widget_get_property" then createError "NOT_IMPLEMENTED" "Not implemented"
  else if feq cmd "widget_set_property" then createError "NOT_IMPLEMENTED" "Not implemented"
  else if feq cmd "widget_list_properties" then createError "NOT_IMPLEMENTED" "Not implemented"
  else if feq cmd "widget_discover_types" then createError "NOT_IMPLEMENTED" "Not implemented"
  else if feq cmd "widget_validate" then createError "NOT_IMPLEMENTED" "Not implemented"
  else if feq cmd "widget_get_events" then createError "NOT_IMPLEMENTED" "Not implemented"
  else if feq cmd "widget_bind_events" then createError "NOT_IMPLEMENTED" "Not implemented"
  else createError "UNKNOWN_COMMAND" ("Unknown widget command: " ++ cmd)

/-- The `FAssetCommands::Search` (AssetCommands.cpp 24-63): registry query
filtered by the `query` substring (case-insensitive) on the asset name, capped
at the first 100 matches. -/
def FAssetCommands.search (env : EngineEnv) (params : JObj) : JObj :=
  let query := getStringField params "query"
  let typeFilter := getStringField params "type"
  let found :=
    ((env.registryAssets typeFilter).filter
      (fun a => query.isEmpty || fcontains a.name query)).take 100
  createSuccess (some
    [("assets", Json.arr (found.map (fun a =>
        Json.obj [("name", Json.str a.name), ("path", Json.str a.path),
          ("class", Json.str a.className)]))),
     ("count", Json.num found.length)])

/-- The `FAssetCommands::HandleCommand` exact-string dispatch
(AssetCommands.cpp 10-22); unlisted operations are the stubs of lines 65-72. -/
def FAssetCommands.handleCommand (env : EngineEnv) (cmd : String) (params : JObj) : JObj :=
  if feq cmd "asset_search" then FAssetCommands.search env params
  else if feq cmd "asset_import_texture" then createError "NOT_IMPLEMENTED" "Not implemented"
  else if feq cmd "asset_export_texture" then createError "NOT_IMPLEMENTED" "Not implemented"
  else if feq cmd "asset_delete" then createError "NOT_IMPLEMENTED" "Not implemented"
  else if feq cmd "asset_duplicate" then createError "NOT_IMPLEMENTED" "Not implemented"
  else if feq cmd "asset_save" then createError "NOT_IMPLEMENTED" "Not implemented"
  else if feq cmd "asset_save_all" then createError "NOT_IMPLEMENTED" "Not implemented"
  else if feq cmd "asset_list_references" then createError "NOT_IMPLEMENTED" "Not implemented"
  else if feq cmd "asset_open" then createError "NOT_IMPLEMENTED" "Not implemented"
  else createError "UNKNOWN_COMMAND" ("Unknown asset command: " ++ cmd)

/-- The `FInputCommands::HandleCommand` exact-string dispatch
(InputCommands.cpp 11-26); every operation is a stub (lines 28-43). -/
def FInputCommands.handleCommand (_env : EngineEnv) (cmd : String) (_params : JObj) : JObj :=
  if feq cmd "input_create_action" then createError "NOT_IMPLEMENTED" "Not implemented"
  else if feq cmd "input_list_actions" then createError "NOT_IMPLEMENTED" "Not implemented"
  else if feq cmd "input_create_context" then createError "NOT_IMPLEMENTED" "Not implemented"
  else if feq cmd "input_list_contexts" then createError "NOT_IMPLEMENTED" "Not implemented"
  else if feq cmd "input_add_mapping" then createError "NOT_IMPLEMENTED" "Not implemented"
  else if feq cmd "input_remove_mapping" then createError "NOT_IMPLEMENTED" "Not implemented"
  else if feq cmd "input_get_mappings" then createError "NOT_IMPLEMENTED" "Not implemented"
  else if feq cmd "input_get_keys" then createError "NOT_IMPLEMENTED" "Not implemented"
  else if feq cmd "input_add_modifier" then createError "NOT_IMPLEMENTED" "Not implemented"
  else if feq cmd "input_remove_modifier" then createError "NOT_IMPLEMENTED" "Not implemented"
  else if feq cmd "input_add_trigger" then createError "NOT_IMPLEMENTED" "Not implemented"
  else if feq cmd "input_remove_trigger" then createError "NOT_IMPLEMENTED" "Not implemented"
  else createError "UNKNOWN_COMMAND" ("Unknown input command: " ++ cmd)

/-- The fixed success payload of the builtin `check_connection` command
(GRIDBridge.cpp 185-188). -/
def checkConnectionData : JObj :=
  [("connected", Json.bool true), ("engine_version", Json.str "5.5"),
   ("plugin_version", Json.str "1.0.0")]

/-- The `FGRIDBridge::RouteCommand` (GRIDBridge.cpp 180-229): the builtin
`check_connection` first, then the prefix chain in source order, then the
`UNKNOWN_COMMAND` fallback. -/
def FGRIDBridge.routeCommand (env : EngineEnv) (cmd : String) (params : JObj) : JObj :=
  if feq cmd "check_connection" then createSuccess (some checkConnectionData)
  else if fstartsWith cmd "blueprint_" then FBlueprintCommands.handleCommand env cmd params
  else if fstartsWith cmd "actor_" then FActorCommands.handleCommand env cmd params
  else if fstartsWith cmd "material_" then FMaterialCommands.handleCommand env cmd params
  else if fstartsWith cmd "widget_" then FWidgetCommands.handleCommand env cmd params
  else if fstartsWith cmd "asset_" then FAssetCommands.handleCommand env cmd params
  else if fstartsWith cmd "input_" then FInputCommands.handleCommand env cmd params
  else createError "UNKNOWN_COMMAND" ("Unknown command: " ++ cmd)

/-- A task submitted to the game thread by `FGRIDBridge::ExecuteCommand`:
the captured command and params whose routing the `AsyncTask` lambda performs. -/
structure OwnerTask where
  cmd : String
  params : JObj

/-- What one `FGRIDBridge::ExecuteCommand` call did: the serialized response
it returned, whether it submitted a task to the game (owner) thread, and the
task left outstanding with no consumer when the wait timed out. -/
structure ExecOutcome where
  response : String
  submittedToOwner : Bool
  pendingTask : Option OwnerTask

/-- The `FGRIDBridge::ExecuteCommand` (GRIDBridge.cpp 231-262). `arrival` is
the time, in seconds from submission, at which the game thread finishes the
task and fulfills the promise (`none`: the game thread never drains, e.g. it
is blocked). The code always submits via `AsyncTask(ENamedThreads::GameThread,
…RouteCommand…)` (line 239) and then waits on the future with
`FTimespan::FromSeconds(30)` (line 251); when the wait fails it returns the
serialized `TIMEOUT` error and simply stops waiting — the task is not
withdrawn. -/
def FGRIDBridge.executeCommand (env : EngineEnv) (arrival : Option Nat)
    (cmd : String) (params : JObj) : ExecOutcome :=
  let bReady : Bool :=
    match arrival with
    | some t => decide (t ≤ 30)
    | none => false
  if bReady then
    { response := Json.render (Json.obj (FGRIDBridge.routeCommand env cmd params))
      submittedToOwner := true
      pendingTask := none }
  else
    { response := Json.render (Json.obj (createError "TIMEOUT" "Command execution timed out"))
      submittedToOwner := true
      pendingTask := some { cmd := cmd, params := params } }

/-- Outcome of `FJsonSerializer::Deserialize` on the received request text
(GRIDServerRunnable.cpp 100-106): either it fails (or yields an invalid
object), or it yields the parsed request object. The byte-level JSON text
parser itself is engine code outside this repository; the decision logic that
consumes its outcome is what is embedded. -/
inductive ParseResult where
  | failed : ParseResult
  | ok : JObj → ParseResult

/-- How `FGRIDServerRunnable::ProcessRequest` disposed of a request: a
protocol-error response built before any dispatch, or delegation to
`Bridge->ExecuteCommand` with the extracted command and params. -/
inductive ProcessOutcome where
  | protocolError : String → ProcessOutcome
  | delegated : String → JObj → ProcessOutcome

/-- Literal response of GRIDServerRunnable.cpp line 105. -/
def invalidJsonResponse : String :=
  "\x7b\"success\":false,\"error_code\":\"INVALID_JSON\",\"error\":\"Failed to parse request JSON\"\x7d"

/-- Literal response of GRIDServerRunnable.cpp line 112. -/
def missingCommandResponse : String :=
  "\x7b\"success\":false,\"error_code\":\"MISSING_COMMAND\",\"error\":\"Request missing 'command' field\"\x7d"

/-- Decision structure of `FGRIDServerRunnable::ProcessRequest`
(GRIDServerRunnable.cpp 97-123): parse failure answers the `INVALID_JSON`
literal; a failing `TryGetStringField(TEXT("command"))` answers the
`MISSING_COMMAND` literal; otherwise the command is delegated with the
`params` object field, replaced by a fresh empty object when invalid. -/
def FGRIDServerRunnable.processRequestDispatch : ParseResult → ProcessOutcome
  | ParseResult.failed => ProcessOutcome.protocolError invalidJsonResponse
  | ParseResult.ok req =>
      match tryGetStringField req "command" with
      | none => ProcessOutcome.protocolError missingCommandResponse
      | some cmd =>
          ProcessOutcome.delegated cmd ((getObjectField req "params").getD [])

/-- The `FGRIDServerRunnable::ProcessRequest` end to end: the protocol-error
literal, or the response string `Bridge->ExecuteCommand` returns. -/
def FGRIDServerRunnable.processRequest (env : EngineEnv) (arrival : Option Nat)
    (pr : ParseResult) : String :=
  match FGRIDServerRunnable.processRequestDispatch pr with
  | ProcessOutcome.protocolError resp => resp
  | ProcessOutcome.delegated cmd params =>
      (FGRIDBridge.executeCommand env arrival cmd params).response

/-- Per-connection circumstances of `FGRIDServerRunnable::HandleClientConnection`
(GRIDServerRunnable.cpp 65-95). -/
structure ConnEnv where
  /-- whether `ClientSocket` is non-null. -/
  socketValid : Bool
  /-- whether `Bridge` is non-null. -/
  bridgeValid : Bool
  /-- whether the socket becomes readable within the 5-second
  `Wait(ESocketWaitConditions::WaitForRead, …)` window (line 78). -/
  readableWithin5s : Bool
  /-- whether the (blocking) `Recv` call eventually returns true. -/
  recvOk : Bool
  /-- the `BytesRead` count reported by `Recv`. -/
  bytesRead : Nat
  /-- parse outcome of the received request text. -/
  request : ParseResult

/-- Observable trace of handling one accepted connection. -/
structure ConnTrace where
  /-- whether `SetNonBlocking(false)` was called. -/
  blockingSet : Bool
  /-- seconds passed to the readability `Wait` call. -/
  waitSeconds : Nat
  /-- a `Recv` call was made. -/
  readAttempted : Bool
  /-- the response written back, when one was sent. -/
  responseSent : Option String
  /-- the client socket was closed (done unconditionally by `Run`, lines 46-47). -/
  socketClosed : Bool

/-- The `FGRIDServerRunnable::HandleClientConnection` (GRIDServerRunnable.cpp
65-95) followed by the unconditional socket close in `Run` (lines 43-48).
Note the source calls `ClientSocket->Wait(…, FTimespan::FromSeconds(5))` and
discards its boolean result: `Recv` is attempted regardless of whether the
socket became readable within the window, so `readableWithin5s` influences
nothing below. -/
def FGRIDServerRunnable.handleClientConnection (cenv : ConnEnv) (env : EngineEnv)
    (arrival : Option Nat) : ConnTrace :=
  if !cenv.socketValid || !cenv.bridgeValid then
    { blockingSet := false, waitSeconds := 0, readAttempted := false
      responseSent := none, socketClosed := true }
  else
    let resp : Option String :=
      if cenv.recvOk && decide (0 < cenv.bytesRead) then
        some (FGRIDServerRunnable.processRequest env arrival cenv.request)
      else none
    { blockingSet := true, waitSeconds := 5, readAttempted := true
      responseSent := resp, socketClosed := true }

/-- Mutable state of one `FGRIDBridge`, plus the file-system and socket facts
it governs and a ghost count of performed binds. -/
structure BridgeM where
  /-- Model of `FPaths::ProjectDir()` for this host, assumed to end in a separator. -/
  projectDir : String
  /-- the `bIsRunning` member. -/
  bIsRunning : Bool
  /-- the `Port` member (bound port; 0 from the constructor). -/
  port : Nat
  /-- whether `ListenerSocket.IsValid()`. -/
  listenerValid : Bool
  /-- the OS listener socket exists and has not been closed/destroyed. -/
  listenerOpen : Bool
  /-- a server thread object exists (`ServerThread` non-null). -/
  threadRunning : Bool
  /-- the `PortFilePath` member (empty string, modelled `none`, until `WritePortFile` sets it). -/
  portFilePath : Option String
  /-- the discovery file currently exists on disk. -/
  fileExists : Bool
  /-- content of the discovery file while it exists. -/
  fileContent : Option String
  /-- ghost: number of successful `Bind` calls performed so far. -/
  binds : Nat

/-- The `FGRIDBridge` constructor state (GRIDBridge.cpp 25-38). -/
def freshBridge (pd : String) : BridgeM :=
  { projectDir := pd, bIsRunning := false, port := 0, listenerValid := false
    listenerOpen := false, threadRunning := false, portFilePath := none
    fileExists := false, fileContent := none, binds := 0 }

/-- The `FPaths::Combine(ProjectDir, "Saved", "Config", "GRID", "Port.txt")`
path of GRIDBridge.cpp 161. -/
def portFilePathOf (pd : String) : String :=
  pd ++ "Saved/Config/GRID/Port.txt"

/-- The `FGRIDBridge::WritePortFile` (GRIDBridge.cpp 157-168): sets
`PortFilePath`, creates the directory tree, and saves the decimal string of
`Port` to the file. -/
def FGRIDBridge.writePortFile (b : BridgeM) : BridgeM :=
  { b with portFilePath := some (portFilePathOf b.projectDir)
           fileExists := true
           fileContent := some (toString b.port) }

/-- The `FGRIDBridge::DeletePortFile` (GRIDBridge.cpp 170-178): deletes the
file only when `PortFilePath` is non-empty. -/
def FGRIDBridge.deletePortFile (b : BridgeM) : BridgeM :=
  match b.portFilePath with
  | some _ => { b with fileExists := false, fileContent := none }
  | none => b

/-- The `FGRIDBridge::Shutdown` (GRIDBridge.cpp 112-155): no-op unless
running; otherwise clear `bIsRunning`, stop the runnable, close and destroy
the listener socket when valid, join and delete the server thread, delete the
port file. -/
def FGRIDBridge.shutdown (b : BridgeM) : BridgeM :=
  if !b.bIsRunning then b
  else
    let b := { b with bIsRunning := false }
    let b :=
      if b.listenerValid then { b with listenerOpen := false, listenerValid := false }
      else b
    let b := { b with threadRunning := false }
    FGRIDBridge.deletePortFile b

/-- How each fallible step inside one `FGRIDBridge::Initialize` call answers. -/
structure InitEnv where
  /-- whether `ISocketSubsystem::Get` answers non-null. -/
  subsystemOk : Bool
  /-- whether `CreateSocket` yields a valid socket. -/
  socketOk : Bool
  /-- whether `Bind` succeeds. -/
  bindOk : Bool
  /-- the OS-assigned port reported by `GetAddress` after a successful bind. -/
  assignedPort : Nat
  /-- whether `Listen(5)` succeeds. -/
  listenOk : Bool
  /-- whether `FRunnableThread::Create` yields a non-null thread. -/
  threadOk : Bool

/-- The `FGRIDBridge::Initialize` (GRIDBridge.cpp 45-110), with every early
return of the source: already running; no socket subsystem; invalid socket;
bind failure; listen failure; and the thread-creation failure path that calls
`Shutdown()` (line 104) before returning. -/
def FGRIDBridge.initBridge (env : InitEnv) (b : BridgeM) : BridgeM :=
  if b.bIsRunning then b
  else if !env.subsystemOk then b
  else if !env.socketOk then b
  else
    let b := { b with listenerValid := true, listenerOpen := true }
    if !env.bindOk then b
    else
      let b := { b with port := env.assignedPort, binds := b.binds + 1 }
      if !env.listenOk then b
      else
        let b := FGRIDBridge.writePortFile b
        if !env.threadOk then FGRIDBridge.shutdown b
        else { b with threadRunning := true, bIsRunning := true }

/-- The `FGRIDBridge::GetPort` accessor. -/
def FGRIDBridge.getPort (b : BridgeM) : Nat :=
  b.port

/-- The spec's BridgeState invariant (section 3): `port != 0` and the
discovery file exists if and only if `isRunning == true`. -/
def BridgeInvariant (b : BridgeM) : Prop :=
  (b.port ≠ 0 ∧ b.fileExists = true) ↔ b.bIsRunning = true

/-- One lifecycle step: an `Initialize()` call under some environment, or a
`Shutdown()` call. -/
inductive BridgeStep : BridgeM → BridgeM → Prop where
  | init (env : InitEnv) (b : BridgeM) : BridgeStep b (FGRIDBridge.initBridge env b)
  | shut (b : BridgeM) : BridgeStep b (FGRIDBridge.shutdown b)

/-- States reachable from a fresh bridge through `Initialize`/`Shutdown`
sequences. -/
inductive BridgeReachable : BridgeM → Prop where
  | start (pd : String) : BridgeReachable (freshBridge pd)
  | step {b b' : BridgeM} : BridgeReachable b → BridgeStep b b' → BridgeReachable b'

/-- Identifiers of the six handler groups in the router's registry. -/
inductive HandlerGroupId where
  | blueprint
  | actor
  | material
  | widget
  | asset
  | input
deriving DecidableEq

/-- Each group's `HandleCommand` entry point. -/
def HandlerGroupId.handle : HandlerGroupId → EngineEnv → String → JObj → JObj
  | HandlerGroupId.blueprint => FBlueprintCommands.handleCommand
  | HandlerGroupId.actor => FActorCommands.handleCommand
  | HandlerGroupId.material => FMaterialCommands.handleCommand
  | HandlerGroupId.widget => FWidgetCommands.handleCommand
  | HandlerGroupId.asset => FAssetCommands.handleCommand
  | HandlerGroupId.input => FInputCommands.handleCommand

/-- The exact operation set each group's dispatch recognizes, in source order. -/
def HandlerGroupId.ops : HandlerGroupId → List String
  | HandlerGroupId.blueprint =>
      ["blueprint_create", "blueprint_compile", "blueprint_get_info", "blueprint_reparent", "blueprint_get_property", "blueprint_set_property", "blueprint_add_component", "blueprint_remove_component", "blueprint_get_hierarchy", "blueprint_add_variable", "blueprint_remove_variable", "blueprint_list_variables", "blueprint_add_function", "blueprint_remove_function", "blueprint_list_functions", "blueprint_discover_nodes", "blueprint_create_node", "blueprint_delete_node", "blueprint_connect_nodes", "blueprint_list_nodes"]
  | HandlerGroupId.actor =>
      ["actor_list", "actor_find", "actor_spawn", "actor_delete", "actor_get_info", "actor_get_transform", "actor_set_transform", "actor_set_location", "actor_set_rotation", "actor_set_scale", "actor_focus", "actor_select", "actor_rename"]
  | HandlerGroupId.material =>
      ["material_create", "material_create_instance", "material_get_info", "material_compile", "material_save"]
  | HandlerGroupId.widget =>
      ["widget_create", "widget_list_components", "widget_add_component", "widget_remove_component", "widget_get_property", "widget_set_property", "widget_list_properties", "widget_discover_types", "widget_validate", "widget_get_events", "widget_bind_events"]
  | HandlerGroupId.asset =>
      ["asset_search", "asset_import_texture", "asset_export_texture", "asset_delete", "asset_duplicate", "asset_save", "asset_save_all", "asset_list_references", "asset_open"]
  | HandlerGroupId.input =>
      ["input_create_action", "input_list_actions", "input_create_context", "input_list_contexts", "input_add_mapping", "input_remove_mapping", "input_get_mappings", "input_get_keys", "input_add_modifier", "input_remove_modifier", "input_add_trigger", "input_remove_trigger"]


/-- Recognized-but-unbuilt operations of each group, paired with the exact
`NOT_IMPLEMENTED` message the stub returns. -/
def HandlerGroupId.stubs : HandlerGroupId → List (String × String)
  | HandlerGroupId.blueprint =>
      [("blueprint_reparent", "ReparentBlueprint not yet implemented"),
       ("blueprint_get_property", "GetProperty not yet implemented"),
       ("blueprint_set_property", "SetProperty not yet implemented"),
       ("blueprint_add_component", "AddComponent not yet implemented"),
       ("blueprint_remove_component", "RemoveComponent not yet implemented"),
       ("blueprint_get_hierarchy", "GetComponentHierarchy not yet implemented"),
       ("blueprint_add_variable", "AddVariable not yet implemented"),
       ("blueprint_remove_variable", "RemoveVariable not yet implemented"),
       ("blueprint_list_variables", "ListVariables not yet implemented"),
       ("blueprint_add_function", "AddFunction not yet implemented"),
       ("blueprint_remove_function", "RemoveFunction not yet implemented"),
       ("blueprint_list_functions", "ListFunctions not yet implemented"),
       ("blueprint_discover_nodes", "DiscoverNodes not yet implemented"),
       ("blueprint_create_node", "CreateNode not yet implemented"),
       ("blueprint_delete_node", "DeleteNode not yet implemented"),
       ("blueprint_connect_nodes", "ConnectNodes not yet implemented"),
       ("blueprint_list_nodes", "ListNodes not yet implemented")]
  | HandlerGroupId.actor =>
      [("actor_delete", "DeleteActor not yet implemented"),
       ("actor_get_info", "GetActorInfo not yet implemented"),
       ("actor_get_transform", "GetTransform not yet implemented"),
       ("actor_set_transform", "SetTransform not yet implemented"),
       ("actor_set_location", "SetLocation not yet implemented"),
       ("actor_set_rotation", "SetRotation not yet implemented"),
       ("actor_set_scale", "SetScale not yet implemented"),
       ("actor_focus", "FocusActor not yet implemented"),
       ("actor_select", "SelectActor not yet implemented"),
       ("actor_rename", "RenameActor not yet implemented")]
  | HandlerGroupId.material =>
      [("material_create_instance", "Not implemented"),
       ("material_get_info", "Not implemented"),
       ("material_compile", "Not implemented"),
       ("material_save", "Not implemented")]
  | HandlerGroupId.widget =>
      [("widget_create", "Not implemented"),
       ("widget_list_components", "Not implemented"),
       ("widget_add_component", "Not implemented"),
       ("widget_remove_component", "Not implemented"),
       ("widget_get_property", "Not implemented"),
       ("widget_set_property", "Not implemented"),
       ("widget_list_properties", "Not implemented"),
       ("widget_discover_types", "Not implemented"),
       ("widget_validate", "Not implemented"),
       ("widget_get_events", "Not implemented"),
       ("widget_bind_events", "Not implemented")]
  | HandlerGroupId.asset =>
      [("asset_import_texture", "Not implemented"),
       ("asset_export_texture", "Not implemented"),
       ("asset_delete", "Not implemented"),
       ("asset_duplicate", "Not implemented"),
       ("asset_save", "Not implemented"),
       ("asset_save_all", "Not implemented"),
       ("asset_list_references", "Not implemented"),
       ("asset_open", "Not implemented")]
  | HandlerGroupId.input =>
      [("input_create_action", "Not implemented"),
       ("input_list_actions", "Not implemented"),
       ("input_create_context", "Not implemented"),
       ("input_list_contexts", "Not implemented"),
       ("input_add_mapping", "Not implemented"),
       ("input_remove_mapping", "Not implemented"),
       ("input_get_mappings", "Not implemented"),
       ("input_get_keys", "Not implemented"),
       ("input_add_modifier", "Not implemented"),
       ("input_remove_modifier", "Not implemented"),
       ("input_add_trigger", "Not implemented"),
       ("input_remove_trigger", "Not implemented")]

/-- Prefix of each group's unknown-exact-command message. -/
def HandlerGroupId.unknownLabel : HandlerGroupId → String
  | HandlerGroupId.blueprint => "Unknown blueprint command: "
  | HandlerGroupId.actor => "Unknown actor command: "
  | HandlerGroupId.material => "Unknown material command: "
  | HandlerGroupId.widget => "Unknown widget command: "
  | HandlerGroupId.asset => "Unknown asset command: "
  | HandlerGroupId.input => "Unknown input command: "

/-- The ordered (prefix, group) registry `RouteCommand` scans. -/
def groupPrefixTable : List (String × HandlerGroupId) :=
  [("blueprint_", HandlerGroupId.blueprint), ("actor_", HandlerGroupId.actor),
   ("material_", HandlerGroupId.material), ("widget_", HandlerGroupId.widget),
   ("asset_", HandlerGroupId.asset), ("input_", HandlerGroupId.input)]

/-- Modelled from the spec's router contract (section 4.4): scan the fixed
ordered prefix list; the first prefix the command starts with wins. -/
def firstMatchingGroup (cmd : String) : Option HandlerGroupId :=
  (groupPrefixTable.find? (fun e => fstartsWith cmd e.1)).map (fun e => e.2)

theorem blueprint_handle_unknown (env : EngineEnv) (cmd : String) (p : JObj)
    (hall : ((HandlerGroupId.ops HandlerGroupId.blueprint).all (fun op => !feq cmd op)) = true) :
    FBlueprintCommands.handleCommand env cmd p
      = createError "UNKNOWN_COMMAND" ("Unknown blueprint command: " ++ cmd) := by
  have h := List.all_eq_true.mp hall
  have h0 : feq cmd "blueprint_create" = false := by simpa using h "blueprint_create" (by decide)
  have h1 : feq cmd "blueprint_compile" = false := by simpa using h "blueprint_compile" (by decide)
  have h2 : feq cmd "blueprint_get_info" = false := by simpa using h "blueprint_get_info" (by decide)
  have h3 : feq cmd "blueprint_reparent" = false := by simpa using h "blueprint_reparent" (by decide)
  have h4 : feq cmd "blueprint_get_property" = false := by simpa using h "blueprint_get_property" (by decide)
  have h5 : feq cmd "blueprint_set_property" = false := by simpa using h "blueprint_set_property" (by decide)
  have h6 : feq cmd "blueprint_add_component" = false := by simpa using h "blueprint_add_component" (by decide)
  have h7 : feq cmd "blueprint_remove_component" = false := by simpa using h "blueprint_remove_component" (by decide)
  have h8 : feq cmd "blueprint_get_hierarchy" = false := by simpa using h "blueprint_get_hierarchy" (by decide)
  have h9 : feq cmd "blueprint_add_variable" = false := by simpa using h "blueprint_add_variable" (by decide)
  have h10 : feq cmd "blueprint_remove_variable" = false := by simpa using h "blueprint_remove_variable" (by decide)
  have h11 : feq cmd "blueprint_list_variables" = false := by simpa using h "blueprint_list_variables" (by decide)
  have h12 : feq cmd "blueprint_add_function" = false := by simpa using h "blueprint_add_function" (by decide)
  have h13 : feq cmd "blueprint_remove_function" = false := by simpa using h "blueprint_remove_function" (by decide)
  have h14 : feq cmd "blueprint_list_functions" = false := by simpa using h "blueprint_list_functions" (by decide)
  have h15 : feq cmd "blueprint_discover_nodes" = false := by simpa using h "blueprint_discover_nodes" (by decide)
  have h16 : feq cmd "blueprint_create_node" = false := by simpa using h "blueprint_create_node" (by decide)
  have h17 : feq cmd "blueprint_delete_node" = false := by simpa using h "blueprint_delete_node" (by decide)
  have h18 : feq cmd "blueprint_connect_nodes" = false := by simpa using h "blueprint_connect_nodes" (by decide)
  have h19 : feq cmd "blueprint_list_nodes" = false := by simpa using h "blueprint_list_nodes" (by decide)
  simp [FBlueprintCommands.handleCommand, h0, h1, h2, h3, h4, h5, h6, h7, h8, h9, h10, h11, h12, h13, h14, h15, h16, h17, h18, h19]

theorem actor_handle_unknown (env : EngineEnv) (cmd : String) (p : JObj)
    (hall : ((HandlerGroupId.ops HandlerGroupId.actor).all (fun op => !feq cmd op)) = true) :
    FActorCommands.handleCommand env cmd p
      = createError "UNKNOWN_COMMAND" ("Unknown actor command: " ++ cmd) := by
  have h := List.all_eq_true.mp hall
  have h0 : feq cmd "actor_list" = false := by simpa using h "actor_list" (by decide)
  have h1 : feq cmd "actor_find" = false := by simpa using h "actor_find" (by decide)
  have h2 : feq cmd "actor_spawn" = false := by simpa using h "actor_spawn" (by decide)
  have h3 : feq cmd "actor_delete" = false := by simpa using h "actor_delete" (by decide)
  have h4 : feq cmd "actor_get_info" = false := by simpa using h "actor_get_info" (by decide)
  have h5 : feq cmd "actor_get_transform" = false := by simpa using h "actor_get_transform" (by decide)
  have h6 : feq cmd "actor_set_transform" = false := by simpa using h "actor_set_transform" (by decide)
  have h7 : feq cmd "actor_set_location" = false := by simpa using h "actor_set_location" (by decide)
  have h8 : feq cmd "actor_set_rotation" = false := by simpa using h "actor_set_rotation" (by decide)
  have h9 : feq cmd "actor_set_scale" = false := by simpa using h "actor_set_scale" (by decide)
  have h10 : feq cmd "actor_focus" = false := by simpa using h "actor_focus" (by decide)
  have h11 : feq cmd "actor_select" = false := by simpa using h "actor_select" (by decide)
  have h12 : feq cmd "actor_rename" = false := by simpa using h "actor_rename" (by decide)
  simp [FActorCommands.handleCommand, h0, h1, h2, h3, h4, h5, h6, h7, h8, h9, h10, h11, h12]

theorem material_handle_unknown (env : EngineEnv) (cmd : String) (p : JObj)
    (hall : ((HandlerGroupId.ops HandlerGroupId.material).all (fun op => !feq cmd op)) = true) :
    FMaterialCommands.handleCommand env cmd p
      = createError "UNKNOWN_COMMAND" ("Unknown material command: " ++ cmd) := by
  have h := List.all_eq_true.mp hall
  have h0 : feq cmd "material_create" = false := by simpa using h "material_create" (by decide)
  have h1 : feq cmd "material_create_instance" = false := by simpa using h "material_create_instance" (by decide)
  have h2 : feq cmd "material_get_info" = false := by simpa using h "material_get_info" (by decide)
  have h3 : feq cmd "material_compile" = false := by simpa using h "material_compile" (by decide)
  have h4 : feq cmd "material_save" = false := by simpa using h "material_save" (by decide)
  simp [FMaterialCommands.handleCommand, h0, h1, h2, h3, h4]

theorem widget_handle_unknown (env : EngineEnv) (cmd : String) (p : JObj)
    (hall : ((HandlerGroupId.ops HandlerGroupId.widget).all (fun op => !feq cmd op)) = true) :
    FWidgetCommands.handleCommand env cmd p
      = createError "UNKNOWN_COMMAND" ("Unknown widget command: " ++ cmd) := by
  have h := List.all_eq_true.mp hall
  have h0 : feq cmd "widget_create" = false := by simpa using h "widget_create" (by decide)
  have h1 : feq cmd "widget_list_components" = false := by simpa using h "widget_list_components" (by decide)
  have h2 : feq cmd "widget_add_component" = false := by simpa using h "widget_add_component" (by decide)
  have h3 : feq cmd "widget_remove_component" = false := by simpa using h "widget_remove_component" (by decide)
  have h4 : feq cmd "widget_get_property" = false := by simpa using h "widget_get_property" (by decide)
  have h5 : feq cmd "widget_set_property" = false := by simpa using h "widget_set_property" (by decide)
  have h6 : feq cmd "widget_list_properties" = false := by simpa using h "widget_list_properties" (by decide)
  have h7 : feq cmd "widget_discover_types" = false := by simpa using h "widget_discover_types" (by decide)
  have h8 : feq cmd "widget_validate" = false := by simpa using h "widget_validate" (by decide)
  have h9 : feq cmd "widget_get_events" = false := by simpa using h "widget_get_events" (by decide)
  have h10 : feq cmd "widget_bind_events" = false := by simpa using h "widget_bind_events" (by decide)
  simp [FWidgetCommands.handleCommand, h0, h1, h2, h3, h4, h5, h6, h7, h8, h9, h10]

theorem asset_handle_unknown (env : EngineEnv) (cmd : String) (p : JObj)
    (hall : ((HandlerGroupId.ops HandlerGroupId.asset).all (fun op => !feq cmd op)) = true) :
    FAssetCommands.handleCommand env cmd p
      = createError "UNKNOWN_COMMAND" ("Unknown asset command: " ++ cmd) := by
  have h := List.all_eq_true.mp hall
  have h0 : feq cmd "asset_search" = false := by simpa using h "asset_search" (by decide)
  have h1 : feq cmd "asset_import_texture" = false := by simpa using h "asset_import_texture" (by decide)
  have h2 : feq cmd "asset_export_texture" = false := by simpa using h "asset_export_texture" (by decide)
  have h3 : feq cmd "asset_delete" = false := by simpa using h "asset_delete" (by decide)
  have h4 : feq cmd "asset_duplicate" = false := by simpa using h "asset_duplicate" (by decide)
  have h5 : feq cmd "asset_save" = false := by simpa using h "asset_save" (by decide)
  have h6 : feq cmd "asset_save_all" = false := by simpa using h "asset_save_all" (by decide)
  have h7 : feq cmd "asset_list_references" = false := by simpa using h "asset_list_references" (by decide)
  have h8 : feq cmd "asset_open" = false := by simpa using h "asset_open" (by decide)
  simp [FAssetCommands.handleCommand, h0, h1, h2, h3, h4, h5, h6, h7, h8]

theorem input_handle_unknown (env : EngineEnv) (cmd : String) (p : JObj)
    (hall : ((HandlerGroupId.ops HandlerGroupId.input).all (fun op => !feq cmd op)) = true) :
    FInputCommands.handleCommand env cmd p
      = createError "UNKNOWN_COMMAND" ("Unknown input command: " ++ cmd) := by
  have h := List.all_eq_true.mp hall
  have h0 : feq cmd "input_create_action" = false := by simpa using h "input_create_action" (by decide)
  have h1 : feq cmd "input_list_actions" = false := by simpa using h "input_list_actions" (by decide)
  have h2 : feq cmd "input_create_context" = false := by simpa using h "input_create_context" (by decide)
  have h3 : feq cmd "input_list_contexts" = false := by simpa using h "input_list_contexts" (by decide)
  have h4 : feq cmd "input_add_mapping" = false := by simpa using h "input_add_mapping" (by decide)
  have h5 : feq cmd "input_remove_mapping" = false := by simpa using h "input_remove_mapping" (by decide)
  have h6 : feq cmd "input_get_mappings" = false := by simpa using h "input_get_mappings" (by decide)
  have h7 : feq cmd "input_get_keys" = false := by simpa using h "input_get_keys" (by decide)
  have h8 : feq cmd "input_add_modifier" = false := by simpa using h "input_add_modifier" (by decide)
  have h9 : feq cmd "input_remove_modifier" = false := by simpa using h "input_remove_modifier" (by decide)
  have h10 : feq cmd "input_add_trigger" = false := by simpa using h "input_add_trigger" (by decide)
  have h11 : feq cmd "input_remove_trigger" = false := by simpa using h "input_remove_trigger" (by decide)
  simp [FInputCommands.handleCommand, h0, h1, h2, h3, h4, h5, h6, h7, h8, h9, h10, h11]


theorem route_eq_scan (env : EngineEnv) (cmd : String) (p : JObj)
    (hcc : feq cmd "check_connection" = false) :
    FGRIDBridge.routeCommand env cmd p =
      match firstMatchingGroup cmd with
      | some g => HandlerGroupId.handle g env cmd p
      | none => createError "UNKNOWN_COMMAND" ("Unknown command: " ++ cmd) := by
  by_cases h1 : fstartsWith cmd "blueprint_" <;>
  by_cases h2 : fstartsWith cmd "actor_" <;>
  by_cases h3 : fstartsWith cmd "material_" <;>
  by_cases h4 : fstartsWith cmd "widget_" <;>
  by_cases h5 : fstartsWith cmd "asset_" <;>
  by_cases h6 : fstartsWith cmd "input_" <;>
    simp [FGRIDBridge.routeCommand, firstMatchingGroup, groupPrefixTable, List.find?,
      hcc, h1, h2, h3, h4, h5, h6, HandlerGroupId.handle]

theorem group_stub_dispatch (env : EngineEnv) (p : JObj) (g : HandlerGroupId) :
    ∀ e ∈ HandlerGroupId.stubs g,
      HandlerGroupId.handle g env e.1 p = createError "NOT_IMPLEMENTED" e.2 := by
  intro e he
  cases g <;> (simp only [HandlerGroupId.stubs] at he; fin_cases he <;> rfl)

/-- Concrete engine environment used to instantiate witnesses: no world, no
loadable assets, factories failing, empty registry. -/
def testEnv : EngineEnv :=
  { world := none
    loadBlueprint := fun _ => none
    findClass := fun _ => none
    blueprintGenClass := fun _ => none
    spawn := fun _ => none
    blueprintFactoryOk := false
    materialFactoryOk := false
    pkgAssetName := fun s => s
    registryAssets := fun _ => [] }

/-- C2: for every command other than `check_connection`, `RouteCommand` scans
the fixed ordered prefix list (blueprint_, actor_, material_, widget_,
asset_, input_) and the first prefix the command starts with wins; with no
match it answers `UNKNOWN_COMMAND`; a matching group performs an exact-string
dispatch over its operation set, answering a group-scoped `UNKNOWN_COMMAND`
for an unrecognized exact command and `NOT_IMPLEMENTED` for each recognized
but unbuilt operation. -/
theorem C2_router_dispatch (env : EngineEnv) (cmd : String) (p : JObj) :
    (feq cmd "check_connection" = false →
      FGRIDBridge.routeCommand env cmd p =
        match firstMatchingGroup cmd with
        | some g => HandlerGroupId.handle g env cmd p
        | none => createError "UNKNOWN_COMMAND" ("Unknown command: " ++ cmd)) ∧
    (∀ g : HandlerGroupId,
      ((HandlerGroupId.ops g).all (fun op => !feq cmd op)) = true →
        HandlerGroupId.handle g env cmd p
          = createError "UNKNOWN_COMMAND" (HandlerGroupId.unknownLabel g ++ cmd)) ∧
    (∀ g : HandlerGroupId, ∀ e ∈ HandlerGroupId.stubs g,
        HandlerGroupId.handle g env e.1 p = createError "NOT_IMPLEMENTED" e.2) := by
  refine ⟨route_eq_scan env cmd p, ?_, fun g => group_stub_dispatch env p g⟩
  intro g hall
  cases g
  · exact blueprint_handle_unknown env cmd p hall
  · exact actor_handle_unknown env cmd p hall
  · exact material_handle_unknown env cmd p hall
  · exact widget_handle_unknown env cmd p hall
  · exact asset_handle_unknown env cmd p hall
  · exact input_handle_unknown env cmd p hall

/-- C2 witness: the three dispatch behaviors at concrete commands — an
unroutable command, an unrecognized actor command, and a recognized but
unbuilt actor operation. -/
theorem C2_router_dispatch_witness :
    FGRIDBridge.routeCommand testEnv "teleport_now" []
      = createError "UNKNOWN_COMMAND" "Unknown command: teleport_now" ∧
    FActorCommands.handleCommand testEnv "actor_fly" []
      = createError "UNKNOWN_COMMAND" "Unknown actor command: actor_fly" ∧
    FActorCommands.handleCommand testEnv "actor_delete" []
      = createError "NOT_IMPLEMENTED" "DeleteActor not yet implemented" :=
  ⟨(C2_router_dispatch testEnv "teleport_now" []).1 (by decide),
   (C2_router_dispatch testEnv "actor_fly" []).2.1 HandlerGroupId.actor (by decide),
   (C2_router_dispatch testEnv "actor_delete" []).2.2 HandlerGroupId.actor
     ("actor_delete", "DeleteActor not yet implemented") (by decide)⟩

/-- C1 counterexample: with the owner (game) thread blocked, `ExecuteCommand`
on `check_connection` still submits a task to the owner-thread executor and
answers the serialized `TIMEOUT` error — not the fixed `connected:true`
payload — so the builtin is not answered by the Bridge on the calling thread
without owner-thread involvement. -/
theorem C1_check_connection_counterexample :
    (FGRIDBridge.executeCommand testEnv none "check_connection" []).submittedToOwner = true ∧
    (FGRIDBridge.executeCommand testEnv none "check_connection" []).response
      = Json.render (Json.obj (createError "TIMEOUT" "Command execution timed out")) ∧
    (FGRIDBridge.executeCommand testEnv none "check_connection" []).pendingTask
      = some { cmd := "check_connection", params := [] } :=
  ⟨rfl, rfl, rfl⟩

/-- C1 amended: `check_connection` is handled at the top of `RouteCommand`,
ahead of the prefix router and the handler groups, and yields the fixed
liveness/version payload regardless of `params` content; but `ExecuteCommand`
submits it — like every command — to the owner-thread executor, and the fixed
payload reaches the caller only when the owner thread services the task
within the 30-second wait. -/
theorem C1_check_connection_amended (env : EngineEnv) (p : JObj) :
    FGRIDBridge.routeCommand env "check_connection" p
      = createSuccess (some checkConnectionData) ∧
    (FGRIDBridge.executeCommand env (some 0) "check_connection" p).submittedToOwner = true ∧
    (FGRIDBridge.executeCommand env (some 0) "check_connection" p).response
      = Json.render (Json.obj (createSuccess (some checkConnectionData))) :=
  ⟨rfl, rfl, rfl⟩

/-- C3: for every submitted command, when the owner-thread result is not
available within the 30-second wait `ExecuteCommand` answers the serialized
`TIMEOUT` error and the submitted task stays outstanding with no consumer of
its result (it was submitted and is never withdrawn); when the result arrives
within 30 seconds it is returned as-is (the serialized `RouteCommand`
result). -/
theorem C3_execute_timeout (env : EngineEnv) (cmd : String) (p : JObj) (t : Nat) :
    (30 < t →
      (FGRIDBridge.executeCommand env (some t) cmd p).response
        = Json.render (Json.obj (createError "TIMEOUT" "Command execution timed out")) ∧
      (FGRIDBridge.executeCommand env (some t) cmd p).submittedToOwner = true ∧
      (FGRIDBridge.executeCommand env (some t) cmd p).pendingTask
        = some { cmd := cmd, params := p }) ∧
    ((FGRIDBridge.executeCommand env none cmd p).response
        = Json.render (Json.obj (createError "TIMEOUT" "Command execution timed out")) ∧
      (FGRIDBridge.executeCommand env none cmd p).pendingTask
        = some { cmd := cmd, params := p }) ∧
    (t ≤ 30 →
      (FGRIDBridge.executeCommand env (some t) cmd p).response
        = Json.render (Json.obj (FGRIDBridge.routeCommand env cmd p)) ∧
      (FGRIDBridge.executeCommand env (some t) cmd p).pendingTask = none) := by
  refine ⟨?_, ⟨rfl, rfl⟩, ?_⟩
  · intro ht
    have hb : decide (t ≤ 30) = false := by simp [Nat.not_le.mpr ht]
    refine ⟨?_, ?_, ?_⟩ <;> simp [FGRIDBridge.executeCommand, hb]
  · intro ht
    have hb : decide (t ≤ 30) = true := by simp [ht]
    refine ⟨?_, ?_⟩ <;> simp [FGRIDBridge.executeCommand, hb]

/-- C3 witness: a 31-second arrival produces the serialized `TIMEOUT` error
with the task left pending, and a 3-second arrival produces the routed
response. -/
theorem C3_execute_timeout_witness :
    ((FGRIDBridge.executeCommand testEnv (some 31) "actor_list" []).response
        = Json.render (Json.obj (createError "TIMEOUT" "Command execution timed out")) ∧
      (FGRIDBridge.executeCommand testEnv (some 31) "actor_list" []).pendingTask
        = some { cmd := "actor_list", params := [] }) ∧
    (FGRIDBridge.executeCommand testEnv (some 3) "actor_list" []).response
      = Json.render (Json.obj (FGRIDBridge.routeCommand testEnv "actor_list" [])) :=
  ⟨⟨((C3_execute_timeout testEnv "actor_list" [] 31).1 (by decide)).1,
    ((C3_execute_timeout testEnv "actor_list" [] 31).1 (by decide)).2.2⟩,
   ((C3_execute_timeout testEnv "actor_list" [] 3).2.2 (by decide)).1⟩

/-- C4 counterexample: a parsed request whose `command` value is the number
42 is not answered with a protocol error — UE's `TryGetStringField` converts
the number to the string "42" and the request is delegated to the Bridge. -/
theorem C4_nonstring_command_counterexample :
    FGRIDServerRunnable.processRequestDispatch (ParseResult.ok [("command", Json.num 42)])
      = ProcessOutcome.delegated "42" [] :=
  rfl

/-- C4 amended: on parse failure, or when the parsed request has no `command`
field whose value is a string — or a number or boolean, which UE's
`TryGetStringField` converts to its string form — the server answers a
well-formed protocol-error response without invoking `ExecuteCommand`;
otherwise it invokes `ExecuteCommand` with the extracted command string and
returns that structured response unchanged. -/
theorem C4_protocol_errors_amended (env : EngineEnv) (arrival : Option Nat) :
    (FGRIDServerRunnable.processRequestDispatch ParseResult.failed
        = ProcessOutcome.protocolError invalidJsonResponse ∧
      invalidJsonResponse
        = Json.render (Json.obj (createError "INVALID_JSON" "Failed to parse request JSON")) ∧
      IsEnvelope (createError "INVALID_JSON" "Failed to parse request JSON") ∧
      FGRIDServerRunnable.processRequest env arrival ParseResult.failed
        = invalidJsonResponse) ∧
    (∀ req : JObj, tryGetStringField req "command" = none →
      FGRIDServerRunnable.processRequestDispatch (ParseResult.ok req)
        = ProcessOutcome.protocolError missingCommandResponse ∧
      missingCommandResponse
        = Json.render (Json.obj (createError "MISSING_COMMAND" "Request missing \x27command\x27 field")) ∧
      IsEnvelope (createError "MISSING_COMMAND" "Request missing \x27command\x27 field") ∧
      FGRIDServerRunnable.processRequest env arrival (ParseResult.ok req)
        = missingCommandResponse) ∧
    (∀ req : JObj, ∀ cmd : String, tryGetStringField req "command" = some cmd →
      FGRIDServerRunnable.processRequestDispatch (ParseResult.ok req)
        = ProcessOutcome.delegated cmd ((getObjectField req "params").getD []) ∧
      FGRIDServerRunnable.processRequest env arrival (ParseResult.ok req)
        = (FGRIDBridge.executeCommand env arrival cmd
            ((getObjectField req "params").getD [])).response) := by
  refine ⟨⟨rfl, rfl, isEnvelope_createError _ _, rfl⟩, ?_, ?_⟩
  · intro req h
    refine ⟨?_, rfl, isEnvelope_createError _ _, ?_⟩ <;>
      simp [FGRIDServerRunnable.processRequestDispatch,
        FGRIDServerRunnable.processRequest, h]
  · intro req cmd h
    refine ⟨?_, ?_⟩ <;>
      simp [FGRIDServerRunnable.processRequestDispatch,
        FGRIDServerRunnable.processRequest, h]

/-- C4 witness: a request with no `command` field gets the missing-command
protocol error; a request with command "ping" is delegated and answered with
the Bridge response. -/
theorem C4_protocol_errors_witness :
    FGRIDServerRunnable.processRequest testEnv (some 0) (ParseResult.ok [])
      = missingCommandResponse ∧
    FGRIDServerRunnable.processRequest testEnv (some 0)
        (ParseResult.ok [("command", Json.str "ping")])
      = (FGRIDBridge.executeCommand testEnv (some 0) "ping" []).response :=
  ⟨((C4_protocol_errors_amended testEnv (some 0)).2.1 [] rfl).2.2.2,
   ((C4_protocol_errors_amended testEnv (some 0)).2.2
      [("command", Json.str "ping")] "ping" rfl).2⟩

/-- Initialize environment where everything succeeds except server-thread
creation, with OS-assigned port 41000. -/
def threadFailEnv : InitEnv :=
  { subsystemOk := true, socketOk := true, bindOk := true,
    assignedPort := 41000, listenOk := true, threadOk := false }

/-- Initialize environment where every step succeeds, with OS-assigned port
41000. -/
def allOkEnv : InitEnv :=
  { subsystemOk := true, socketOk := true, bindOk := true,
    assignedPort := 41000, listenOk := true, threadOk := true }

/-- C5: evaluation at the failing input. From a fresh bridge, `Initialize()`
with socket creation, bind (port 41000) and listen succeeding but
`FRunnableThread::Create` failing reaches a state — through a single
lifecycle step, so reachable — where the claimed BridgeState invariant is
false: the port is set and the discovery file exists while `bIsRunning` is
false. -/
theorem C5_invariant_violated :
    BridgeReachable (FGRIDBridge.initBridge threadFailEnv (freshBridge "/Project/")) ∧
    ¬ BridgeInvariant (FGRIDBridge.initBridge threadFailEnv (freshBridge "/Project/")) := by
  constructor
  · exact BridgeReachable.step (BridgeReachable.start "/Project/")
      (BridgeStep.init threadFailEnv (freshBridge "/Project/"))
  · intro h
    have hrun := h.mp ⟨by decide, rfl⟩
    exact absurd hrun (by decide)

/-- C10: when `Initialize()` succeeds through bind and listen — publishing the
discovery file — but server-thread creation fails, the `Shutdown()` call made
on that failure path is a no-op because `bIsRunning` is still false, so the
bridge ends with `IsRunning()` false while the discovery file remains on disk
and the listener socket remains open. -/
theorem C10_thread_failure_leak (pd : String) (env : InitEnv)
    (hsub : env.subsystemOk = true) (hsock : env.socketOk = true)
    (hbind : env.bindOk = true) (hlisten : env.listenOk = true)
    (hthread : env.threadOk = false) :
    (FGRIDBridge.initBridge env (freshBridge pd)).bIsRunning = false ∧
    (FGRIDBridge.initBridge env (freshBridge pd)).fileExists = true ∧
    (FGRIDBridge.initBridge env (freshBridge pd)).listenerOpen = true ∧
    (FGRIDBridge.initBridge env (freshBridge pd)).port = env.assignedPort ∧
    FGRIDBridge.shutdown (FGRIDBridge.initBridge env (freshBridge pd))
      = FGRIDBridge.initBridge env (freshBridge pd) := by
  have hs : FGRIDBridge.initBridge env (freshBridge pd) =
      { projectDir := pd, bIsRunning := false, port := env.assignedPort,
        listenerValid := true, listenerOpen := true, threadRunning := false,
        portFilePath := some (portFilePathOf pd), fileExists := true,
        fileContent := some (toString env.assignedPort), binds := 1 } := by
    simp [FGRIDBridge.initBridge, hsub, hsock, hbind, hlisten, hthread,
      FGRIDBridge.writePortFile, FGRIDBridge.shutdown, freshBridge]
  rw [hs]
  refine ⟨rfl, rfl, rfl, rfl, ?_⟩
  simp [FGRIDBridge.shutdown]

/-- C10 witness: the leak at the concrete thread-failure environment. -/
theorem C10_thread_failure_leak_witness :
    (FGRIDBridge.initBridge threadFailEnv (freshBridge "/Project/")).bIsRunning = false ∧
    (FGRIDBridge.initBridge threadFailEnv (freshBridge "/Project/")).fileExists = true ∧
    (FGRIDBridge.initBridge threadFailEnv (freshBridge "/Project/")).listenerOpen = true ∧
    (FGRIDBridge.initBridge threadFailEnv (freshBridge "/Project/")).port
      = threadFailEnv.assignedPort ∧
    FGRIDBridge.shutdown (FGRIDBridge.initBridge threadFailEnv (freshBridge "/Project/"))
      = FGRIDBridge.initBridge threadFailEnv (freshBridge "/Project/") :=
  C10_thread_failure_leak "/Project/" threadFailEnv rfl rfl rfl rfl rfl

/-- Connection circumstances of the C6 failing input: valid socket and
bridge, no readability within the 5-second wait window, but a blocking
`Recv` that later succeeds with data. -/
def lateClientEnv : ConnEnv :=
  { socketValid := true, bridgeValid := true, readableWithin5s := false,
    recvOk := true, bytesRead := 10,
    request := ParseResult.ok [("command", Json.str "check_connection")] }

/-- C6: evaluation at the failing input. The source discards the result of
the 5-second readability `Wait` (GRIDServerRunnable.cpp 78), so on a
connection that is not readable within 5 seconds the read is still
attempted, and when the blocking `Recv` later yields data a response is
still sent — the connection is not abandoned as claimed (only the
unconditional close still happens). -/
theorem C6_read_wait_ignored :
    lateClientEnv.readableWithin5s = false ∧
    (FGRIDServerRunnable.handleClientConnection lateClientEnv testEnv (some 0)).readAttempted
      = true ∧
    (FGRIDServerRunnable.handleClientConnection lateClientEnv testEnv (some 0)).responseSent
      = some (Json.render (Json.obj (createSuccess (some checkConnectionData)))) ∧
    (FGRIDServerRunnable.handleClientConnection lateClientEnv testEnv (some 0)).socketClosed
      = true :=
  ⟨rfl, rfl, rfl, rfl⟩

theorem initBridge_ok_eq (pd : String) (env : InitEnv)
    (hsub : env.subsystemOk = true) (hsock : env.socketOk = true)
    (hbind : env.bindOk = true) (hlisten : env.listenOk = true)
    (hthread : env.threadOk = true) :
    FGRIDBridge.initBridge env (freshBridge pd) =
      { projectDir := pd, bIsRunning := true, port := env.assignedPort,
        listenerValid := true, listenerOpen := true, threadRunning := true,
        portFilePath := some (portFilePathOf pd), fileExists := true,
        fileContent := some (toString env.assignedPort), binds := 1 } := by
  simp [FGRIDBridge.initBridge, hsub, hsock, hbind, hlisten, hthread,
    FGRIDBridge.writePortFile, freshBridge]

/-- C7: `Initialize()` and `Shutdown()` are idempotent. A second
`Initialize()` after a successful one is a no-op (so exactly one bind was
performed and `bIsRunning` stays true with the same port), and a second
`Shutdown()` after one from a running state is a no-op (the server stays
stopped and the discovery file stays absent both times). -/
theorem C7_idempotence (pd : String) (env env2 : InitEnv) (b : BridgeM)
    (hsub : env.subsystemOk = true) (hsock : env.socketOk = true)
    (hbind : env.bindOk = true) (hlisten : env.listenOk = true)
    (hthread : env.threadOk = true)
    (hrun : b.bIsRunning = true) (hpath : b.portFilePath.isSome = true) :
    ((FGRIDBridge.initBridge env (freshBridge pd)).bIsRunning = true ∧
     (FGRIDBridge.initBridge env (freshBridge pd)).binds = 1 ∧
     FGRIDBridge.initBridge env2 (FGRIDBridge.initBridge env (freshBridge pd))
       = FGRIDBridge.initBridge env (freshBridge pd)) ∧
    ((FGRIDBridge.shutdown b).bIsRunning = false ∧
     (FGRIDBridge.shutdown b).fileExists = false ∧
     FGRIDBridge.shutdown (FGRIDBridge.shutdown b) = FGRIDBridge.shutdown b) := by
  have hs := initBridge_ok_eq pd env hsub hsock hbind hlisten hthread
  constructor
  · rw [hs]
    exact ⟨rfl, rfl, rfl⟩
  · rcases hp : b.portFilePath with _ | path
    · rw [hp] at hpath
      simp at hpath
    · by_cases hl : b.listenerValid = true <;>
        simp [FGRIDBridge.shutdown, FGRIDBridge.deletePortFile, hrun, hp, hl]

/-- C7 witness: idempotence at the concrete all-success environment and at
the running bridge it produces. -/
theorem C7_idempotence_witness :
    ((FGRIDBridge.initBridge allOkEnv (freshBridge "/Project/")).bIsRunning = true ∧
     (FGRIDBridge.initBridge allOkEnv (freshBridge "/Project/")).binds = 1 ∧
     FGRIDBridge.initBridge threadFailEnv
         (FGRIDBridge.initBridge allOkEnv (freshBridge "/Project/"))
       = FGRIDBridge.initBridge allOkEnv (freshBridge "/Project/")) ∧
    ((FGRIDBridge.shutdown (FGRIDBridge.initBridge allOkEnv (freshBridge "/Project/"))).bIsRunning
       = false ∧
     (FGRIDBridge.shutdown (FGRIDBridge.initBridge allOkEnv (freshBridge "/Project/"))).fileExists
       = false ∧
     FGRIDBridge.shutdown
         (FGRIDBridge.shutdown (FGRIDBridge.initBridge allOkEnv (freshBridge "/Project/")))
       = FGRIDBridge.shutdown (FGRIDBridge.initBridge allOkEnv (freshBridge "/Project/"))) :=
  C7_idempotence "/Project/" allOkEnv threadFailEnv
    (FGRIDBridge.initBridge allOkEnv (freshBridge "/Project/"))
    rfl rfl rfl rfl rfl (by decide) (by decide)

/-- C8: after an `Initialize()` that completes with a successful bind, the
discovery file at the fixed `<ProjectDir>/Saved/Config/GRID/Port.txt` path
exists and contains exactly the decimal string of the bound port, which
equals `GetPort()`; after `Shutdown()` from that running state the file no
longer exists. -/
theorem C8_discovery_file (pd : String) (env : InitEnv)
    (hsub : env.subsystemOk = true) (hsock : env.socketOk = true)
    (hbind : env.bindOk = true) (hlisten : env.listenOk = true)
    (hthread : env.threadOk = true) :
    (FGRIDBridge.initBridge env (freshBridge pd)).fileExists = true ∧
    (FGRIDBridge.initBridge env (freshBridge pd)).portFilePath
      = some (portFilePathOf pd) ∧
    (FGRIDBridge.initBridge env (freshBridge pd)).fileContent
      = some (toString (FGRIDBridge.getPort (FGRIDBridge.initBridge env (freshBridge pd)))) ∧
    FGRIDBridge.getPort (FGRIDBridge.initBridge env (freshBridge pd)) = env.assignedPort ∧
    (FGRIDBridge.shutdown (FGRIDBridge.initBridge env (freshBridge pd))).fileExists = false := by
  have hs := initBridge_ok_eq pd env hsub hsock hbind hlisten hthread
  rw [hs]
  refine ⟨rfl, rfl, rfl, rfl, ?_⟩
  simp [FGRIDBridge.shutdown, FGRIDBridge.deletePortFile, FGRIDBridge.getPort]

/-- C8 witness: the discovery-file contract at the concrete all-success
environment (port 41000). -/
theorem C8_discovery_file_witness :
    (FGRIDBridge.initBridge allOkEnv (freshBridge "/Project/")).fileExists = true ∧
    (FGRIDBridge.initBridge allOkEnv (freshBridge "/Project/")).portFilePath
      = some (portFilePathOf "/Project/") ∧
    (FGRIDBridge.initBridge allOkEnv (freshBridge "/Project/")).fileContent
      = some (toString (FGRIDBridge.getPort
          (FGRIDBridge.initBridge allOkEnv (freshBridge "/Project/")))) ∧
    FGRIDBridge.getPort (FGRIDBridge.initBridge allOkEnv (freshBridge "/Project/"))
      = allOkEnv.assignedPort ∧
    (FGRIDBridge.shutdown (FGRIDBridge.initBridge allOkEnv (freshBridge "/Project/"))).fileExists
      = false :=
  C8_discovery_file "/Project/" allOkEnv rfl rfl rfl rfl rfl

theorem isEnvelope_listActors (env : EngineEnv) (p : JObj) :
    IsEnvelope (FActorCommands.listActors env p) := by
  simp only [FActorCommands.listActors]
  split
  · exact isEnvelope_createError _ _
  · exact isEnvelope_createSuccess _

theorem isEnvelope_findActors (env : EngineEnv) (p : JObj) :
    IsEnvelope (FActorCommands.findActors env p) := by
  simp only [FActorCommands.findActors]
  split
  · exact isEnvelope_createError _ _
  · exact isEnvelope_createSuccess _

theorem isEnvelope_spawnActor (env : EngineEnv) (p : JObj) :
    IsEnvelope (FActorCommands.spawnActor env p) := by
  simp only [FActorCommands.spawnActor]
  repeat' split
  all_goals first
    | exact isEnvelope_createError _ _
    | exact isEnvelope_createSuccess _

theorem isEnvelope_createBlueprint (env : EngineEnv) (p : JObj) :
    IsEnvelope (FBlueprintCommands.createBlueprint env p) := by
  simp only [FBlueprintCommands.createBlueprint]
  repeat' split
  all_goals first
    | exact isEnvelope_createError _ _
    | exact isEnvelope_createSuccess _

theorem isEnvelope_compileBlueprint (env : EngineEnv) (p : JObj) :
    IsEnvelope (FBlueprintCommands.compileBlueprint env p) := by
  simp only [FBlueprintCommands.compileBlueprint]
  split
  · exact isEnvelope_createError _ _
  · exact isEnvelope_createSuccess _

theorem isEnvelope_getBlueprintInfo (env : EngineEnv) (p : JObj) :
    IsEnvelope (FBlueprintCommands.getBlueprintInfo env p) := by
  simp only [FBlueprintCommands.getBlueprintInfo]
  repeat' split
  all_goals first
    | exact isEnvelope_createError _ _
    | exact isEnvelope_createSuccess _

theorem isEnvelope_createMaterial (env : EngineEnv) (p : JObj) :
    IsEnvelope (FMaterialCommands.createMaterial env p) := by
  simp only [FMaterialCommands.createMaterial]
  repeat' split
  all_goals first
    | exact isEnvelope_createError _ _
    | exact isEnvelope_createSuccess _

theorem isEnvelope_assetSearch (env : EngineEnv) (p : JObj) :
    IsEnvelope (FAssetCommands.search env p) := by
  simp only [FAssetCommands.search]
  exact isEnvelope_createSuccess _

theorem isEnvelope_ite (c : Prop) [Decidable c] {a b : JObj}
    (ha : IsEnvelope a) (hb : IsEnvelope b) : IsEnvelope (if c then a else b) := by
  split
  · exact ha
  · exact hb

theorem isEnvelope_actor_handle (env : EngineEnv) (cmd : String) (p : JObj) :
    IsEnvelope (FActorCommands.handleCommand env cmd p) := by
  simp only [FActorCommands.handleCommand]
  repeat'
    first
      | exact isEnvelope_listActors env p
      | exact isEnvelope_findActors env p
      | exact isEnvelope_spawnActor env p
      | exact isEnvelope_createError _ _
      | apply isEnvelope_ite

theorem isEnvelope_blueprint_handle (env : EngineEnv) (cmd : String) (p : JObj) :
    IsEnvelope (FBlueprintCommands.handleCommand env cmd p) := by
  simp only [FBlueprintCommands.handleCommand]
  repeat'
    first
      | exact isEnvelope_createBlueprint env p
      | exact isEnvelope_compileBlueprint env p
      | exact isEnvelope_getBlueprintInfo env p
      | exact isEnvelope_createError _ _
      | apply isEnvelope_ite

theorem isEnvelope_material_handle (env : EngineEnv) (cmd : String) (p : JObj) :
    IsEnvelope (FMaterialCommands.handleCommand env cmd p) := by
  simp only [FMaterialCommands.handleCommand]
  repeat'
    first
      | exact isEnvelope_createMaterial env p
      | exact isEnvelope_createError _ _
      | apply isEnvelope_ite

theorem isEnvelope_widget_handle (env : EngineEnv) (cmd : String) (p : JObj) :
    IsEnvelope (FWidgetCommands.handleCommand env cmd p) := by
  simp only [FWidgetCommands.handleCommand]
  repeat'
    first
      | exact isEnvelope_createError _ _
      | apply isEnvelope_ite

theorem isEnvelope_asset_handle (env : EngineEnv) (cmd : String) (p : JObj) :
    IsEnvelope (FAssetCommands.handleCommand env cmd p) := by
  simp only [FAssetCommands.handleCommand]
  repeat'
    first
      | exact isEnvelope_assetSearch env p
      | exact isEnvelope_createError _ _
      | apply isEnvelope_ite

theorem isEnvelope_input_handle (env : EngineEnv) (cmd : String) (p : JObj) :
    IsEnvelope (FInputCommands.handleCommand env cmd p) := by
  simp only [FInputCommands.handleCommand]
  repeat'
    first
      | exact isEnvelope_createError _ _
      | apply isEnvelope_ite

theorem isEnvelope_route (env : EngineEnv) (cmd : String) (p : JObj) :
    IsEnvelope (FGRIDBridge.routeCommand env cmd p) := by
  simp only [FGRIDBridge.routeCommand]
  repeat'
    first
      | exact isEnvelope_createSuccess _
      | exact isEnvelope_blueprint_handle env cmd p
      | exact isEnvelope_actor_handle env cmd p
      | exact isEnvelope_material_handle env cmd p
      | exact isEnvelope_widget_handle env cmd p
      | exact isEnvelope_asset_handle env cmd p
      | exact isEnvelope_input_handle env cmd p
      | exact isEnvelope_createError _ _
      | apply isEnvelope_ite

/-- C9: every response produced by the Bridge's routing, by the timeout path
of `ExecuteCommand`, and by every handler group is exactly one of the two
envelope shapes: a boolean `success` field; on success at most an optional
`data` field and no error fields; on failure string `error_code` and `error`
fields and no `data`. -/
theorem C9_response_envelope (env : EngineEnv) (cmd : String) (p : JObj) :
    IsEnvelope (FGRIDBridge.routeCommand env cmd p) ∧
    (∀ g : HandlerGroupId, IsEnvelope (HandlerGroupId.handle g env cmd p)) ∧
    (∀ arrival : Option Nat, ∃ o : JObj,
      (FGRIDBridge.executeCommand env arrival cmd p).response
        = Json.render (Json.obj o) ∧ IsEnvelope o) := by
  refine ⟨isEnvelope_route env cmd p, ?_, ?_⟩
  · intro g
    cases g
    · exact isEnvelope_blueprint_handle env cmd p
    · exact isEnvelope_actor_handle env cmd p
    · exact isEnvelope_material_handle env cmd p
    · exact isEnvelope_widget_handle env cmd p
    · exact isEnvelope_asset_handle env cmd p
    · exact isEnvelope_input_handle env cmd p
  · intro arrival
    simp only [FGRIDBridge.executeCommand]
    split
    · exact ⟨FGRIDBridge.routeCommand env cmd p, rfl, isEnvelope_route env cmd p⟩
    · exact ⟨createError "TIMEOUT" "Command execution timed out", rfl,
        isEnvelope_createError _ _⟩
